import Mathlib

/-!
Verification of the Unified Billing and Reporting Platform core.

Shallow embedding of the billing engine:
* `billing/schemas.py` — the data model (`TripData`, `ContractRuleConfig`,
  `CalculationResult`, `BillingModelType`).
* `billing/strategies.py` — the three cost strategies and the shared tax helper.
* `billing/repository.py` — the trip/contract context resolver (its row
  post-processing; the SQL row set is modelled as an abstract storage map).
* `service.py` — the service layer: cached active-contract lookup
  (`functools.lru_cache`, modelled as an explicit LRU association list),
  per-trip calculation, and the batch billing-data operation.

Python floats are modelled as exact rationals (`ℚ`); `round(x, 2)` is modelled
as exact decimal rounding with ties broken to even (the tie-breaking rule of
Python `round`). Python dicts are modelled as association lists, `None` as
`Option.none`, and exceptions as `Except String`.
-/

set_option maxRecDepth 4000

/-- Round a rational to the nearest integer, ties to even (banker rounding,
as Python `round` does on exact halves). -/
def roundHalfEven (q : ℚ) : ℤ :=
  let f := q.floor
  if q - f < 1/2 then f
  else if q - f > 1/2 then f + 1
  else if f % 2 = 0 then f else f + 1

/-- Model of Python `round(x, 2)`: round to 2 decimal places. -/
def rnd2 (q : ℚ) : ℚ := (roundHalfEven (q * 100) : ℚ) / 100

-- --- billing/schemas.py ---

/-- `BillingModelType` enum from `billing/schemas.py`. -/
inductive BillingModelType where
  | PER_TRIP
  | FIXED_PACKAGE
  | HYBRID
deriving DecidableEq, Repr

/-- The `.value` of the Python `str`-enum member. -/
def BillingModelType.value : BillingModelType → String
  | .PER_TRIP => "PER_TRIP"
  | .FIXED_PACKAGE => "FIXED_PACKAGE"
  | .HYBRID => "HYBRID"

/-- `TripData` dataclass from `billing/schemas.py`. -/
structure TripData where
  trip_id : String
  distance_km : ℚ
  duration_minutes : ℚ
  start_hour : ℤ
  vehicle_type : String := "Standard"
  is_carpool : Bool := false
deriving DecidableEq, Repr

/-- `ContractRuleConfig` dataclass from `billing/schemas.py`.  Optional numeric
fields default to `some 0` (Python default `0.0`); `incentive_rules` defaults
to `none` (Python `None`), with the dict modelled as an association list. -/
structure ContractRuleConfig where
  currency : String := "USD"
  base_monthly_fee : Option ℚ := some 0
  free_km_included : Option ℚ := some 0
  night_shift_surcharge : Option ℚ := some 0
  per_km_rate_after_limit : Option ℚ := some 0
  base_fare : Option ℚ := some 0
  cost_per_km : Option ℚ := some 0
  cost_per_minute : Option ℚ := some 0
  min_fare : Option ℚ := some 0
  package_price : Option ℚ := some 0
  included_km : Option ℚ := some 0
  overage_per_km : Option ℚ := some 0
  incentive_rules : Option (List (String × ℚ)) := none
deriving DecidableEq, Repr

/-- A value in the `breakdown` mapping of a `CalculationResult`: Python puts
numbers, strings, and (for `monthly_fee_reference`) possibly `None` there. -/
inductive BVal where
  | num (q : ℚ)
  | str (s : String)
  | none
deriving DecidableEq, Repr

/-- `CalculationResult` dataclass from `billing/schemas.py`. -/
structure CalculationResult where
  trip_id : String
  billing_model : BillingModelType
  base_cost : ℚ
  tax_amount : ℚ
  total_cost : ℚ
  breakdown : List (String × BVal)
  employee_incentive : ℚ := 0
  incentive_breakdown : Option (List (String × ℚ)) := Option.none
deriving DecidableEq, Repr

-- --- billing/strategies.py ---

/-- Model of the Python idiom `x or 0.0` applied to an optional numeric rule
field (`None` and `0.0` both yield `0.0`). -/
def orZero (x : Option ℚ) : ℚ := x.getD 0

/-- The default `tax_rate` parameter of `BillingStrategy.apply_tax`. -/
def default_tax_rate : ℚ := 18/100

/-- `BillingStrategy.apply_tax`: `round(base_cost * tax_rate, 2)`.  The rate is
a parameter with language-level default `0.18`; call sites pass
`default_tax_rate` since no strategy ever supplies a rate. -/
def apply_tax (base_cost : ℚ) (tax_rate : ℚ) : ℚ :=
  rnd2 (base_cost * tax_rate)

/-- The night-shift test in `HybridStrategy.calculate_cost`:
`trip.start_hour >= 20 or trip.start_hour < 6`. -/
def night_shift_flag (trip : TripData) : Bool :=
  decide (20 ≤ trip.start_hour) || decide (trip.start_hour < 6)

/-- The carpool bonus extracted from the nested incentive rules:
`float((rules.incentive_rules or \x7b\x7d).get("carpool_bonus", 0.0) or 0.0)`. -/
def carpool_bonus_of (rules : ContractRuleConfig) : ℚ :=
  (((rules.incentive_rules).getD []).lookup "carpool_bonus").getD 0

/-- The `employee_incentive` accumulator common to all three strategies: the
carpool bonus is added exactly when the trip is a carpool trip and the bonus is
truthy (nonzero). -/
def employee_incentive_of (trip : TripData) (rules : ContractRuleConfig) : ℚ :=
  if trip.is_carpool = true ∧ carpool_bonus_of rules ≠ 0 then carpool_bonus_of rules else 0

/-- The `incentive_breakdown` accumulator common to all three strategies;
`incentive_breakdown or None` maps the empty dict back to `None`. -/
def incentive_breakdown_of (trip : TripData) (rules : ContractRuleConfig) :
    Option (List (String × ℚ)) :=
  if trip.is_carpool = true ∧ carpool_bonus_of rules ≠ 0 then
    some [("carpool_bonus", carpool_bonus_of rules)]
  else Option.none

/-- The `cost` accumulator of `HybridStrategy.calculate_cost` before tax:
night-shift surcharge (when applicable) plus distance times
`per_km_rate_after_limit`. -/
def hybrid_raw_cost (trip : TripData) (rules : ContractRuleConfig) : ℚ :=
  (if night_shift_flag trip then orZero rules.night_shift_surcharge else 0)
    + trip.distance_km * orZero rules.per_km_rate_after_limit

/-- The `breakdown` dict built by `HybridStrategy.calculate_cost`, in insertion
order. -/
def hybrid_breakdown (trip : TripData) (rules : ContractRuleConfig) :
    List (String × BVal) :=
  (if night_shift_flag trip then
     [("night_shift_surcharge", BVal.num (orZero rules.night_shift_surcharge))]
   else
     [("night_shift_surcharge", BVal.num 0),
      ("note", BVal.str "Not a night shift trip")])
  ++ [("distance_cost", BVal.num (trip.distance_km * orZero rules.per_km_rate_after_limit)),
      ("rate_per_km", BVal.num (orZero rules.per_km_rate_after_limit))]
  ++ (if trip.is_carpool then
        (if carpool_bonus_of rules ≠ 0 then
           [("carpool_bonus", BVal.num (carpool_bonus_of rules))]
         else [])
      else [("carpool_bonus", BVal.num 0)])

/-- `HybridStrategy.calculate_cost` from `billing/strategies.py`. -/
def HybridStrategy.calculate_cost (trip : TripData) (rules : ContractRuleConfig) :
    CalculationResult :=
  let cost := hybrid_raw_cost trip rules
  let employee_incentive := employee_incentive_of trip rules
  let tax := apply_tax cost default_tax_rate
  let total := rnd2 (cost + tax + employee_incentive)
  { trip_id := trip.trip_id
    billing_model := BillingModelType.HYBRID
    base_cost := rnd2 cost
    tax_amount := tax
    total_cost := total
    breakdown := hybrid_breakdown trip rules
    employee_incentive := rnd2 employee_incentive
    incentive_breakdown := incentive_breakdown_of trip rules }

/-- The `subtotal` of `PerTripStrategy.calculate_cost`:
`base_fare + distance_km * cost_per_km`. -/
def per_trip_raw_cost (trip : TripData) (rules : ContractRuleConfig) : ℚ :=
  orZero rules.base_fare + trip.distance_km * orZero rules.cost_per_km

/-- `PerTripStrategy.calculate_cost` from `billing/strategies.py`. -/
def PerTripStrategy.calculate_cost (trip : TripData) (rules : ContractRuleConfig) :
    CalculationResult :=
  let rate := orZero rules.cost_per_km
  let base := orZero rules.base_fare
  let dist_cost := trip.distance_km * rate
  let subtotal := base + dist_cost
  let employee_incentive := employee_incentive_of trip rules
  let tax := apply_tax subtotal default_tax_rate
  let total := rnd2 (subtotal + tax + employee_incentive)
  { trip_id := trip.trip_id
    billing_model := BillingModelType.PER_TRIP
    base_cost := rnd2 subtotal
    tax_amount := tax
    total_cost := total
    breakdown :=
      [("base_fare", BVal.num base),
       ("distance_cost", BVal.num dist_cost),
       ("rate_per_km", BVal.num rate),
       ("carpool_bonus",
         BVal.num (if trip.is_carpool then carpool_bonus_of rules else 0))]
    employee_incentive := rnd2 employee_incentive
    incentive_breakdown := incentive_breakdown_of trip rules }

/-- `FixedPackageStrategy.calculate_cost` from `billing/strategies.py`:
cost and tax are literal zeros; only the incentive reaches the total. -/
def FixedPackageStrategy.calculate_cost (trip : TripData) (rules : ContractRuleConfig) :
    CalculationResult :=
  let cost : ℚ := 0
  let tax : ℚ := 0
  let employee_incentive := employee_incentive_of trip rules
  { trip_id := trip.trip_id
    billing_model := BillingModelType.FIXED_PACKAGE
    base_cost := cost
    tax_amount := tax
    total_cost := rnd2 employee_incentive
    breakdown :=
      [("note", BVal.str "Covered by Monthly Fixed Fee"),
       ("monthly_fee_reference",
         match rules.package_price with
         | some q => BVal.num q
         | Option.none => BVal.none),
       ("km_consumed", BVal.num trip.distance_km),
       ("carpool_bonus",
         BVal.num (if trip.is_carpool then carpool_bonus_of rules else 0))]
    employee_incentive := rnd2 employee_incentive
    incentive_breakdown := incentive_breakdown_of trip rules }

/-- `StrategyFactory.get_strategy` composed with the strategy call: every
member of the closed enum has a mapped strategy, so the dispatch is total. -/
def calculate_cost (model : BillingModelType) (trip : TripData)
    (rules : ContractRuleConfig) : CalculationResult :=
  match model with
  | .HYBRID => HybridStrategy.calculate_cost trip rules
  | .PER_TRIP => PerTripStrategy.calculate_cost trip rules
  | .FIXED_PACKAGE => FixedPackageStrategy.calculate_cost trip rules

-- --- Claims about the strategy set ---

/-- Claim C1, amended: for every trip and rule configuration, the HYBRID and
PER_TRIP strategies compute `tax_amount = round(c * 0.18, 2)` where `c` is the
pre-rounding base cost (the accumulated `cost`/`subtotal` variable), and the
`base_cost` field of the result is `round(c, 2)`.  The `0.18` rate is a fixed
literal, never read from the rule configuration (`apply_tax` is called with the
language-level default rate by both strategies). -/
theorem hybrid_per_trip_tax_fixed_rate_on_unrounded_cost
    (trip : TripData) (rules : ContractRuleConfig) :
    (HybridStrategy.calculate_cost trip rules).tax_amount
        = rnd2 (hybrid_raw_cost trip rules * (18/100))
    ∧ (HybridStrategy.calculate_cost trip rules).base_cost
        = rnd2 (hybrid_raw_cost trip rules)
    ∧ (PerTripStrategy.calculate_cost trip rules).tax_amount
        = rnd2 (per_trip_raw_cost trip rules * (18/100))
    ∧ (PerTripStrategy.calculate_cost trip rules).base_cost
        = rnd2 (per_trip_raw_cost trip rules) :=
  ⟨rfl, rfl, rfl, rfl⟩

/-- Claim C1, counterexample: the claim as stated — `tax_amount` equals
`round(base_cost * 0.18, 2)` computed from the rounded `base_cost` field — is
false.  With distance 1 and rate 2.3617 the raw cost is 2.3617, the stored
`base_cost` is 2.36, and `round(2.3617 * 0.18, 2) = 0.43` while
`round(2.36 * 0.18, 2) = 0.42`. -/
theorem hybrid_tax_ne_recomputation_from_rounded_base :
    (HybridStrategy.calculate_cost
      { trip_id := "t", distance_km := 1, duration_minutes := 0, start_hour := 12 }
      { per_km_rate_after_limit := some 2.3617 }).tax_amount
    ≠ rnd2 ((HybridStrategy.calculate_cost
      { trip_id := "t", distance_km := 1, duration_minutes := 0, start_hour := 12 }
      { per_km_rate_after_limit := some 2.3617 }).base_cost * (18/100)) := by
  with_unfolding_all decide

/-- Claim C2, amended: for every trip and rule configuration,
`total_cost = round(c + tax_amount + i, 2)` for HYBRID and PER_TRIP, where `c`
and `i` are the pre-rounding base cost and employee incentive (the `base_cost`
and `employee_incentive` fields are their 2-decimal roundings); and for
FIXED_PACKAGE `total_cost` equals the `employee_incentive` field exactly. -/
theorem total_cost_additive_over_unrounded_components
    (trip : TripData) (rules : ContractRuleConfig) :
    (HybridStrategy.calculate_cost trip rules).total_cost
        = rnd2 (hybrid_raw_cost trip rules
            + (HybridStrategy.calculate_cost trip rules).tax_amount
            + employee_incentive_of trip rules)
    ∧ (PerTripStrategy.calculate_cost trip rules).total_cost
        = rnd2 (per_trip_raw_cost trip rules
            + (PerTripStrategy.calculate_cost trip rules).tax_amount
            + employee_incentive_of trip rules)
    ∧ (FixedPackageStrategy.calculate_cost trip rules).total_cost
        = (FixedPackageStrategy.calculate_cost trip rules).employee_incentive :=
  ⟨rfl, rfl, rfl⟩

/-- Claim C2, counterexample: the additivity identity over the rounded result
fields is false.  With raw cost 2.004 and carpool bonus 0.004 the code computes
`total_cost = round(2.004 + 0.36 + 0.004, 2) = round(2.368, 2) = 2.37`, while
the rounded fields (`base_cost = 2.00`, `tax_amount = 0.36`,
`employee_incentive = round(0.004, 2) = 0.00`) give `round(2.36, 2) = 2.36`.
Every rounding here is far from a half-cent boundary, so no tie-breaking is
involved. -/
theorem total_cost_ne_sum_of_rounded_fields :
    (HybridStrategy.calculate_cost
      { trip_id := "t", distance_km := 1, duration_minutes := 0, start_hour := 12,
        is_carpool := true }
      { per_km_rate_after_limit := some 2.004,
        incentive_rules := some [("carpool_bonus", 0.004)] }).total_cost
    ≠ rnd2 ((HybridStrategy.calculate_cost
        { trip_id := "t", distance_km := 1, duration_minutes := 0, start_hour := 12,
          is_carpool := true }
        { per_km_rate_after_limit := some 2.004,
          incentive_rules := some [("carpool_bonus", 0.004)] }).base_cost
      + (HybridStrategy.calculate_cost
        { trip_id := "t", distance_km := 1, duration_minutes := 0, start_hour := 12,
          is_carpool := true }
        { per_km_rate_after_limit := some 2.004,
          incentive_rules := some [("carpool_bonus", 0.004)] }).tax_amount
      + (HybridStrategy.calculate_cost
        { trip_id := "t", distance_km := 1, duration_minutes := 0, start_hour := 12,
          is_carpool := true }
        { per_km_rate_after_limit := some 2.004,
          incentive_rules := some [("carpool_bonus", 0.004)] }).employee_incentive) := by
  with_unfolding_all decide

/-- Claim C3: the FIXED_PACKAGE strategy always returns `base_cost = 0` and
`tax_amount = 0` for every trip (any distance, start hour, carpool flag) and
every rule configuration; its `total_cost` equals the `employee_incentive`
field alone, and that field is exactly the (rounded) carpool incentive, which
is still computed and added when applicable. -/
theorem fixed_package_zero_base_and_tax
    (trip : TripData) (rules : ContractRuleConfig) :
    (FixedPackageStrategy.calculate_cost trip rules).base_cost = 0
    ∧ (FixedPackageStrategy.calculate_cost trip rules).tax_amount = 0
    ∧ (FixedPackageStrategy.calculate_cost trip rules).total_cost
        = (FixedPackageStrategy.calculate_cost trip rules).employee_incentive
    ∧ (FixedPackageStrategy.calculate_cost trip rules).employee_incentive
        = rnd2 (employee_incentive_of trip rules) :=
  ⟨rfl, rfl, rfl, rfl⟩

/-- Claim C4: the spec scenario.  A trip with distance 10 and start hour 22
under HYBRID rules (night surcharge 20, per-km rate 5) yields base cost 70,
tax 12.60, total 82.60 without carpool; with carpool and a carpool bonus of 50
it yields employee incentive 50 and total 132.60.  The night-shift surcharge
branch is taken exactly when the start hour is at least 20 or below 6. -/
theorem hybrid_night_shift_scenario :
    ((HybridStrategy.calculate_cost
        { trip_id := "T1", distance_km := 10, duration_minutes := 0, start_hour := 22 }
        { night_shift_surcharge := some 20, per_km_rate_after_limit := some 5 }).base_cost = 70
      ∧ (HybridStrategy.calculate_cost
        { trip_id := "T1", distance_km := 10, duration_minutes := 0, start_hour := 22 }
        { night_shift_surcharge := some 20, per_km_rate_after_limit := some 5 }).tax_amount = 12.60
      ∧ (HybridStrategy.calculate_cost
        { trip_id := "T1", distance_km := 10, duration_minutes := 0, start_hour := 22 }
        { night_shift_surcharge := some 20, per_km_rate_after_limit := some 5 }).total_cost = 82.60)
    ∧ ((HybridStrategy.calculate_cost
        { trip_id := "T1", distance_km := 10, duration_minutes := 0, start_hour := 22,
          is_carpool := true }
        { night_shift_surcharge := some 20, per_km_rate_after_limit := some 5,
          incentive_rules := some [("carpool_bonus", 50)] }).employee_incentive = 50
      ∧ (HybridStrategy.calculate_cost
        { trip_id := "T1", distance_km := 10, duration_minutes := 0, start_hour := 22,
          is_carpool := true }
        { night_shift_surcharge := some 20, per_km_rate_after_limit := some 5,
          incentive_rules := some [("carpool_bonus", 50)] }).total_cost = 132.60)
    ∧ (∀ trip : TripData,
        night_shift_flag trip = true ↔ (20 ≤ trip.start_hour ∨ trip.start_hour < 6)) := by
  refine ⟨by with_unfolding_all decide, by with_unfolding_all decide, ?_⟩
  intro trip
  simp [night_shift_flag]

/-- Claim C10: the configuration fields `currency`, `base_monthly_fee`,
`free_km_included`, `cost_per_minute`, `min_fare`, `included_km` and
`overage_per_km` never influence any strategy.  Two rule configurations
agreeing on every other field (the only ones any strategy reads:
`night_shift_surcharge`, `per_km_rate_after_limit`, `base_fare`,
`cost_per_km`, `package_price`, `incentive_rules`) produce identical
`CalculationResult`s for all three strategies — in particular no strategy
subtracts an included-distance allowance or enforces a minimum fare. -/
theorem strategies_independent_of_unused_rule_fields
    (trip : TripData) (r1 r2 : ContractRuleConfig)
    (h1 : r1.night_shift_surcharge = r2.night_shift_surcharge)
    (h2 : r1.per_km_rate_after_limit = r2.per_km_rate_after_limit)
    (h3 : r1.base_fare = r2.base_fare)
    (h4 : r1.cost_per_km = r2.cost_per_km)
    (h5 : r1.package_price = r2.package_price)
    (h6 : r1.incentive_rules = r2.incentive_rules) :
    HybridStrategy.calculate_cost trip r1 = HybridStrategy.calculate_cost trip r2
    ∧ PerTripStrategy.calculate_cost trip r1 = PerTripStrategy.calculate_cost trip r2
    ∧ FixedPackageStrategy.calculate_cost trip r1 = FixedPackageStrategy.calculate_cost trip r2 := by
  cases r1
  cases r2
  dsimp only at h1 h2 h3 h4 h5 h6
  subst h1 h2 h3 h4 h5 h6
  exact ⟨rfl, rfl, rfl⟩

/-- Witness for C10 at a concrete input: two configurations that differ in
`currency`, `min_fare`, `included_km`, `base_monthly_fee`, `free_km_included`,
`cost_per_minute` and `overage_per_km` give identical results. -/
theorem strategies_independent_of_unused_rule_fields_witness :
    HybridStrategy.calculate_cost
        { trip_id := "w", distance_km := 7, duration_minutes := 30, start_hour := 21,
          is_carpool := true }
        { currency := "USD", min_fare := some 5, included_km := some 2,
          base_monthly_fee := some 100, free_km_included := some 1,
          cost_per_minute := some 3, overage_per_km := some 4,
          night_shift_surcharge := some 20, per_km_rate_after_limit := some 5,
          base_fare := some 2, cost_per_km := some 6, package_price := some 999,
          incentive_rules := some [("carpool_bonus", 50)] }
      = HybridStrategy.calculate_cost
        { trip_id := "w", distance_km := 7, duration_minutes := 30, start_hour := 21,
          is_carpool := true }
        { currency := "EUR", min_fare := some 50, included_km := some 20,
          base_monthly_fee := some 0, free_km_included := some 10,
          cost_per_minute := some 30, overage_per_km := some 40,
          night_shift_surcharge := some 20, per_km_rate_after_limit := some 5,
          base_fare := some 2, cost_per_km := some 6, package_price := some 999,
          incentive_rules := some [("carpool_bonus", 50)] }
    ∧ PerTripStrategy.calculate_cost
        { trip_id := "w", distance_km := 7, duration_minutes := 30, start_hour := 21,
          is_carpool := true }
        { currency := "USD", min_fare := some 5, included_km := some 2,
          base_monthly_fee := some 100, free_km_included := some 1,
          cost_per_minute := some 3, overage_per_km := some 4,
          night_shift_surcharge := some 20, per_km_rate_after_limit := some 5,
          base_fare := some 2, cost_per_km := some 6, package_price := some 999,
          incentive_rules := some [("carpool_bonus", 50)] }
      = PerTripStrategy.calculate_cost
        { trip_id := "w", distance_km := 7, duration_minutes := 30, start_hour := 21,
          is_carpool := true }
        { currency := "EUR", min_fare := some 50, included_km := some 20,
          base_monthly_fee := some 0, free_km_included := some 10,
          cost_per_minute := some 30, overage_per_km := some 40,
          night_shift_surcharge := some 20, per_km_rate_after_limit := some 5,
          base_fare := some 2, cost_per_km := some 6, package_price := some 999,
          incentive_rules := some [("carpool_bonus", 50)] }
    ∧ FixedPackageStrategy.calculate_cost
        { trip_id := "w", distance_km := 7, duration_minutes := 30, start_hour := 21,
          is_carpool := true }
        { currency := "USD", min_fare := some 5, included_km := some 2,
          base_monthly_fee := some 100, free_km_included := some 1,
          cost_per_minute := some 3, overage_per_km := some 4,
          night_shift_surcharge := some 20, per_km_rate_after_limit := some 5,
          base_fare := some 2, cost_per_km := some 6, package_price := some 999,
          incentive_rules := some [("carpool_bonus", 50)] }
      = FixedPackageStrategy.calculate_cost
        { trip_id := "w", distance_km := 7, duration_minutes := 30, start_hour := 21,
          is_carpool := true }
        { currency := "EUR", min_fare := some 50, included_km := some 20,
          base_monthly_fee := some 0, free_km_included := some 10,
          cost_per_minute := some 30, overage_per_km := some 40,
          night_shift_surcharge := some 20, per_km_rate_after_limit := some 5,
          base_fare := some 2, cost_per_km := some 6, package_price := some 999,
          incentive_rules := some [("carpool_bonus", 50)] } :=
  strategies_independent_of_unused_rule_fields _ _ _ rfl rfl rfl rfl rfl rfl

-- --- billing/repository.py: the trip/contract context resolver ---

/-- Model of Python `str.upper()`: upper-case every character. -/
def pyUpper (s : String) : String := String.mk (s.data.map Char.toUpper)

/-- Python `BillingModelType(raw)` lookup by enum value: `some` on the three
recognized tags, `none` models the `ValueError` branch. -/
def billingModelOfString (s : String) : Option BillingModelType :=
  if s = "PER_TRIP" then some BillingModelType.PER_TRIP
  else if s = "FIXED_PACKAGE" then some BillingModelType.FIXED_PACKAGE
  else if s = "HYBRID" then some BillingModelType.HYBRID
  else Option.none

/-- The billing-model tag handling in `PostgresRepository.fetch_trip_context`:
`raw_model = row["billing_model"].upper()`, then `BillingModelType(raw_model)`
with the `ValueError` handler falling back to HYBRID.  A total function: no
error escapes. -/
def resolve_billing_model (raw : String) : BillingModelType :=
  (billingModelOfString (pyUpper raw)).getD BillingModelType.HYBRID

/-- A timestamp as the resolver consumes it: an absolute offset in minutes
(used for durations) plus its hour-of-day component (Python `datetime.hour`). -/
structure PyTime where
  abs_minutes : ℚ
  hour : ℤ
deriving DecidableEq, Repr

/-- A pooled database connection, reduced to the one piece of state the claims
concern: whether an open transaction is still pending on it. -/
structure Conn where
  txn_open : Bool
deriving DecidableEq, Repr

/-- `conn.rollback()`: closes any pending transaction. -/
def Conn.rollback (_ : Conn) : Conn := { txn_open := false }

/-- The joined row returned by the `fetch_trip_context` SQL query (trip columns
plus the matching contract version's billing model and rule configuration).
The rule configuration is stored already shaped as the recognized schema,
modelling the JSONB payload after `create_config_safe` key filtering. -/
structure TripContextRow where
  trip_id : String
  distance_km : Option ℚ
  start_time : Option PyTime
  end_time : Option PyTime
  is_carpool : Bool
  billing_model : String
  rules_config : ContractRuleConfig
deriving Repr

/-- A row of the currently-valid contract version for a client, as returned by
the `fetch_active_contract` SQL query. -/
structure ContractRow where
  contract_id : String
  vendor_id : String
  billing_model : String
  rules_config : List (String × ℚ)
deriving DecidableEq, Repr

/-- A row of `fetch_client_trips` (the per-client trip listing). -/
structure TripListRow where
  trip_id : String
  distance_km : ℚ
  start_time : Option PyTime
  end_time : Option PyTime
  vendor_id : String
  is_carpool : Bool
deriving DecidableEq, Repr

/-- The storage layer, abstracted to the three read queries the claims use;
each map returns the single row the corresponding SQL statement would
(`LIMIT 1`), or `none` when the result set is empty. -/
structure DB where
  trip_context : String → String → Option TripContextRow
  active_contract : String → Option ContractRow
  client_trips : String → List TripListRow

/-- `PostgresRepository.fetch_trip_context`: resolve trip data, billing-model
kind and rule configuration for `(trip_id, client_id)`.  On an empty result it
raises `ValueError` (modelled as `Except.error`) and rolls back any supplied
connection before propagating; no partial trip data escapes.  Derived fields:
duration from the two timestamps when both are present (else 0), start hour
from the start timestamp (else 0). -/
def fetch_trip_context (db : DB) (trip_id client_id : String) (conn : Option Conn) :
    Except String (TripData × BillingModelType × ContractRuleConfig) × Option Conn :=
  match db.trip_context trip_id client_id with
  | Option.none =>
      (Except.error ("No active contract found for Trip ID: " ++ trip_id),
       conn.map Conn.rollback)
  | some row =>
      let duration_minutes : ℚ :=
        match row.end_time, row.start_time with
        | some e, some s => e.abs_minutes - s.abs_minutes
        | _, _ => 0
      let start_hour : ℤ :=
        match row.start_time with
        | some s => s.hour
        | Option.none => 0
      let trip : TripData :=
        { trip_id := row.trip_id
          distance_km := orZero row.distance_km
          duration_minutes := duration_minutes
          start_hour := start_hour
          vehicle_type := "Standard"
          is_carpool := row.is_carpool }
      (Except.ok (trip, resolve_billing_model row.billing_model, row.rules_config), conn)

-- --- service.py: the billing service layer ---

/-- `BillingService.calculate_trip_cost`: fetch the trip context, apply a
caller-supplied carpool override when present, dispatch to the strategy, and
return the result.  The `except` handler rolls back the connection (a second,
idempotent rollback after the one inside the resolver) and re-raises. -/
def calculate_trip_cost (db : DB) (trip_id client_id : String) (conn : Option Conn)
    (override_is_carpool : Option Bool) :
    Except String CalculationResult × Option Conn :=
  match fetch_trip_context db trip_id client_id conn with
  | (Except.error e, conn1) => (Except.error e, conn1.map Conn.rollback)
  | (Except.ok (trip, model, rules), conn1) =>
      let trip2 :=
        match override_is_carpool with
        | some b => { trip with is_carpool := b }
        | Option.none => trip
      (Except.ok (calculate_cost model trip2 rules), conn1)

/-- `PostgresRepository.fetch_active_contract`: the single currently-valid
contract row for a client, with the billing-model tag upper-cased; raises
`ValueError` when no row exists. -/
def fetch_active_contract (db : DB) (client_id : String) : Except String ContractRow :=
  match db.active_contract client_id with
  | some row => Except.ok { row with billing_model := pyUpper row.billing_model }
  | Option.none =>
      Except.error ("No active contract found for Client ID: " ++ client_id)

/-- The tuple cached by `get_cached_active_contract`:
`(contract_id, vendor_id, billing_model, str(rules_config))`. -/
abbrev CachedTuple := String × String × String × String

/-- The `functools.lru_cache` table: an association list ordered from most to
least recently used. -/
abbrev CacheState := List (String × CachedTuple)

/-- Lookup in the cache table by client id. -/
def cacheLookup : CacheState → String → Option CachedTuple
  | [], _ => Option.none
  | p :: rest, k => if p.1 = k then some p.2 else cacheLookup rest k

/-- Removal of a key from the cache table (used when an entry is moved to the
most-recently-used position). -/
def cacheRemove : CacheState → String → CacheState
  | [], _ => []
  | p :: rest, k => if p.1 = k then cacheRemove rest k else p :: cacheRemove rest k

/-- The `maxsize` argument of the `lru_cache` decorator on
`get_cached_active_contract`. -/
def lru_maxsize : Nat := 128

/-- Rendering of Python `str(rules_config)` on the stored mapping, used because
`lru_cache` needs hashable values.  The exact text is an abstraction of the
CPython dict repr; what matters to the claims is that the cached path stores a
string rendering of the mapping, not the mapping itself. -/
def pyStrOfDict (d : List (String × ℚ)) : String :=
  "\x7b" ++ String.intercalate ", "
    (d.map (fun p => "\x27" ++ p.1 ++ "\x27: " ++ toString p.2)) ++ "\x7d"

/-- `BillingService.get_cached_active_contract` with the `lru_cache` state made
explicit: on a hit the entry moves to the most-recently-used position and no
storage read happens; on a miss the contract is fetched, rendered hashable and
inserted, evicting beyond `lru_maxsize` entries; a raising fetch caches
nothing.  The boolean reports whether storage was read. -/
def get_cached_active_contract (db : DB) (st : CacheState) (client_id : String) :
    Except String (CachedTuple × CacheState × Bool) :=
  match cacheLookup st client_id with
  | some v => Except.ok (v, (client_id, v) :: cacheRemove st client_id, false)
  | Option.none =>
      match fetch_active_contract db client_id with
      | Except.error e => Except.error e
      | Except.ok row =>
          let t : CachedTuple :=
            (row.contract_id, row.vendor_id, row.billing_model,
             pyStrOfDict row.rules_config)
          Except.ok (t, ((client_id, t) :: st).take lru_maxsize, true)

/-- The `rules_config` field of the public contract result: the raw mapping on
the fresh path, a string rendering on the cached path. -/
inductive RulesVal where
  | str (s : String)
  | dict (d : List (String × ℚ))
deriving DecidableEq, Repr

/-- The dictionary returned by `BillingService.get_active_contract`. -/
structure ActiveContractResult where
  contract_id : String
  vendor_id : String
  billing_model : String
  rules_config : RulesVal
deriving DecidableEq, Repr

/-- `BillingService.get_active_contract`: with a live connection it always
reads storage afresh and returns the raw rules mapping, leaving the cache
untouched; without one it goes through the LRU cache and returns the cached
string rendering.  The boolean reports whether storage was read. -/
def get_active_contract (db : DB) (st : CacheState) (client_id : String)
    (conn : Option Conn) :
    Except String (ActiveContractResult × CacheState × Bool) :=
  match conn with
  | some _ =>
      match fetch_active_contract db client_id with
      | Except.error e => Except.error e
      | Except.ok row =>
          Except.ok
            ({ contract_id := row.contract_id
               vendor_id := row.vendor_id
               billing_model := row.billing_model
               rules_config := RulesVal.dict row.rules_config }, st, true)
  | Option.none =>
      match get_cached_active_contract db st client_id with
      | Except.error e => Except.error e
      | Except.ok (t, st2, fetched) =>
          Except.ok
            ({ contract_id := t.1
               vendor_id := t.2.1
               billing_model := t.2.2.1
               rules_config := RulesVal.str t.2.2.2 }, st2, fetched)

/-- A row of `BillingService.get_client_billing_data`: trip details merged with
either the calculated costs (status SUCCESS) or the captured failure (status
ERROR). -/
structure BillingRow where
  trip_id : String
  start_time : Option PyTime
  end_time : Option PyTime
  distance_km : ℚ
  billing_model : String
  base_cost : ℚ
  tax_amount : ℚ
  total_cost : ℚ
  employee_incentive : ℚ
  status : String
  error : Option String
deriving DecidableEq, Repr

/-- The merged row built in the `try` branch of the batch loop. -/
def successRow (t : TripListRow) (res : CalculationResult) : BillingRow :=
  { trip_id := res.trip_id
    start_time := t.start_time
    end_time := t.end_time
    distance_km := t.distance_km
    billing_model := res.billing_model.value
    base_cost := res.base_cost
    tax_amount := res.tax_amount
    total_cost := res.total_cost
    employee_incentive := res.employee_incentive
    status := "SUCCESS"
    error := Option.none }

/-- The fallback row built in the `except` branch of the batch loop. -/
def errorRow (t : TripListRow) (e : String) : BillingRow :=
  { trip_id := t.trip_id
    start_time := t.start_time
    end_time := t.end_time
    distance_km := t.distance_km
    billing_model := "ERROR"
    base_cost := 0
    tax_amount := 0
    total_cost := 0
    employee_incentive := 0
    status := "ERROR"
    error := some e }

/-- The loop body of `get_client_billing_data`, threading the connection: each
trip is priced via `calculate_trip_cost`; a failure is captured in that trip
row (after rolling back the connection) and the remaining trips are still
processed. -/
def billingRowsLoop (db : DB) (client_id : String) :
    List TripListRow → Option Conn → List BillingRow × Option Conn
  | [], conn => ([], conn)
  | t :: rest, conn =>
      match calculate_trip_cost db t.trip_id client_id conn Option.none with
      | (Except.ok res, conn1) =>
          let step := billingRowsLoop db client_id rest conn1
          (successRow t res :: step.1, step.2)
      | (Except.error e, conn1) =>
          let step := billingRowsLoop db client_id rest (conn1.map Conn.rollback)
          (errorRow t e :: step.1, step.2)

/-- `BillingService.get_client_billing_data`: list the client trips and price
each one, capturing per-trip failures as ERROR rows.  Total by construction:
no exception escapes the loop. -/
def get_client_billing_data (db : DB) (client_id : String) (conn : Option Conn) :
    List BillingRow × Option Conn :=
  billingRowsLoop db client_id (db.client_trips client_id) conn

-- --- Claims about the resolver and the service layer ---

/-- Claim C5: every textual billing-model tag read from storage is upper-cased
and matched against the enum; a tag whose upper-casing is not one of PER_TRIP,
FIXED_PACKAGE, HYBRID maps to HYBRID, and a recognized tag maps to its matching
kind.  `resolve_billing_model` is a total function: no error is raised on any
input. -/
theorem resolver_tag_uppercased_fallback_hybrid (s : String) :
    (billingModelOfString (pyUpper s) = Option.none →
        resolve_billing_model s = BillingModelType.HYBRID)
    ∧ (∀ k : BillingModelType,
        billingModelOfString (pyUpper s) = some k → resolve_billing_model s = k) := by
  constructor
  · intro h
    simp [resolve_billing_model, h]
  · intro k h
    simp [resolve_billing_model, h]

/-- Witness for C5: an unrecognized tag falls back to HYBRID, and the
lower-case spelling of a recognized tag maps to its kind. -/
theorem resolver_tag_uppercased_fallback_hybrid_witness :
    resolve_billing_model "weird_model" = BillingModelType.HYBRID
    ∧ resolve_billing_model "per_trip" = BillingModelType.PER_TRIP :=
  ⟨(resolver_tag_uppercased_fallback_hybrid "weird_model").1 (by decide),
   (resolver_tag_uppercased_fallback_hybrid "per_trip").2 BillingModelType.PER_TRIP
     (by decide)⟩

/-- Claim C8: when no trip, linking contract, or covering contract version
exists (the SQL join returns no row), the resolver raises the NotFound-class
`ValueError` and returns no partial trip data (`Except.error` carries only the
message); any supplied live connection is rolled back before the error
propagates, leaving no transaction open. -/
theorem resolver_notfound_rolls_back (db : DB) (tid cid : String) (conn : Option Conn)
    (h : db.trip_context tid cid = Option.none) :
    (fetch_trip_context db tid cid conn).1
        = Except.error ("No active contract found for Trip ID: " ++ tid)
    ∧ (fetch_trip_context db tid cid conn).2 = conn.map Conn.rollback
    ∧ (∀ c : Conn, conn = some c →
        (fetch_trip_context db tid cid conn).2 = some { txn_open := false }) := by
  refine ⟨?_, ?_, ?_⟩
  · simp [fetch_trip_context, h]
  · simp [fetch_trip_context, h]
  · intro c hc
    subst hc
    simp [fetch_trip_context, h, Conn.rollback]

/-- A storage state with no rows at all, used to witness NotFound behavior. -/
def emptyDB : DB :=
  { trip_context := fun _ _ => Option.none
    active_contract := fun _ => Option.none
    client_trips := fun _ => [] }

/-- Witness for C8: resolving a missing trip with an open transaction yields
the NotFound error and a rolled-back connection. -/
theorem resolver_notfound_rolls_back_witness :
    (fetch_trip_context emptyDB "t9" "c1" (some { txn_open := true })).1
        = Except.error ("No active contract found for Trip ID: " ++ "t9")
    ∧ (fetch_trip_context emptyDB "t9" "c1" (some { txn_open := true })).2
        = (some { txn_open := true } : Option Conn).map Conn.rollback
    ∧ (∀ c : Conn, (some { txn_open := true } : Option Conn) = some c →
        (fetch_trip_context emptyDB "t9" "c1" (some { txn_open := true })).2
          = some { txn_open := false }) :=
  resolver_notfound_rolls_back emptyDB "t9" "c1" (some { txn_open := true }) rfl

/-- Claim C9: `get_active_contract` without a connection (here: from an empty
cache, forcing the read-through fill) returns `rules_config` as the string
rendering of the stored mapping — the `str(dict)` required for cache
hashability — while the same call with a connection returns the raw mapping;
the two shapes are never equal. -/
theorem cached_vs_fresh_rules_config_shape (db : DB) (cid : String) (row : ContractRow)
    (c : Conn) (st : CacheState) (h : db.active_contract cid = some row) :
    (get_active_contract db [] cid Option.none).map (fun x => x.1.rules_config)
        = Except.ok (RulesVal.str (pyStrOfDict row.rules_config))
    ∧ (get_active_contract db st cid (some c)).map (fun x => x.1.rules_config)
        = Except.ok (RulesVal.dict row.rules_config)
    ∧ RulesVal.str (pyStrOfDict row.rules_config) ≠ RulesVal.dict row.rules_config := by
  refine ⟨?_, ?_, by simp⟩
  · simp [get_active_contract, get_cached_active_contract, cacheLookup,
      fetch_active_contract, h, Except.map]
  · simp [get_active_contract, fetch_active_contract, h, Except.map]

/-- A concrete contract row used by the cache-related witnesses. -/
def rowW : ContractRow :=
  { contract_id := "ct1", vendor_id := "v1", billing_model := "HYBRID",
    rules_config := [("night_shift_surcharge", 20)] }

/-- A concrete storage state holding one active contract. -/
def dbW : DB :=
  { emptyDB with active_contract := fun _ => some rowW }

/-- Witness for C9 at a concrete storage state: the cached path yields the
string rendering, the connection path the raw mapping, and they differ. -/
theorem cached_vs_fresh_rules_config_shape_witness :
    (get_active_contract dbW [] "client1" Option.none).map (fun x => x.1.rules_config)
      = Except.ok (RulesVal.str (pyStrOfDict rowW.rules_config))
    ∧ (get_active_contract dbW [("other", ("x", "y", "z", "w"))] "client1"
        (some { txn_open := true })).map (fun x => x.1.rules_config)
      = Except.ok (RulesVal.dict rowW.rules_config)
    ∧ RulesVal.str (pyStrOfDict rowW.rules_config) ≠ RulesVal.dict rowW.rules_config :=
  cached_vs_fresh_rules_config_shape dbW "client1" rowW
    { txn_open := true } [("other", ("x", "y", "z", "w"))] rfl

-- --- LRU cache lemmas for the C6 claim ---

theorem cacheLookup_cons_self (k : String) (v : CachedTuple) (st : CacheState) :
    cacheLookup ((k, v) :: st) k = some v := by
  simp [cacheLookup]

theorem cacheRemove_cons_self (k : String) (v : CachedTuple) (st : CacheState) :
    cacheRemove ((k, v) :: st) k = cacheRemove st k := by
  simp [cacheRemove]

theorem cacheRemove_of_lookup_none (st : CacheState) (k : String)
    (h : cacheLookup st k = Option.none) : cacheRemove st k = st := by
  induction st with
  | nil => rfl
  | cons p rest ih =>
      by_cases hp : p.1 = k
      · simp [cacheLookup, hp] at h
      · simp [cacheLookup, hp] at h
        simp [cacheRemove, hp, ih h]

theorem cacheRemove_idem (st : CacheState) (k : String) :
    cacheRemove (cacheRemove st k) k = cacheRemove st k := by
  induction st with
  | nil => rfl
  | cons p rest ih =>
      by_cases hp : p.1 = k
      · simp [cacheRemove, hp, ih]
      · simp [cacheRemove, hp, ih]

theorem cacheLookup_take_none (st : CacheState) (k : String) (n : Nat)
    (h : cacheLookup st k = Option.none) :
    cacheLookup (st.take n) k = Option.none := by
  induction st generalizing n with
  | nil => simp [cacheLookup]
  | cons p rest ih =>
      cases n with
      | zero => simp [cacheLookup]
      | succ m =>
          by_cases hp : p.1 = k
          · simp [cacheLookup, hp] at h
          · simp [cacheLookup, hp] at h
            simp [cacheLookup, hp, ih m h]

/-- Claim C6: the active-contract cache property.  First conjunct: a second
no-connection `get_active_contract` call right after a successful one for the
same tenant returns the identical result, an unchanged cache, and performs no
storage read (the flag is `false`).  Second conjunct: with a live connection
the returned data is independent of the cache state.  Third conjunct: a
successful call with a live connection always reads storage (flag `true`) and
leaves the cache untouched. -/
theorem active_contract_cache_property :
    (∀ (db : DB) (st : CacheState) (cid : String) (r : ActiveContractResult)
        (st1 : CacheState) (f : Bool),
        get_active_contract db st cid Option.none = Except.ok (r, st1, f) →
        get_active_contract db st1 cid Option.none = Except.ok (r, st1, false))
    ∧ (∀ (db : DB) (st st' : CacheState) (cid : String) (c c' : Conn),
        (get_active_contract db st cid (some c)).map (fun x => x.1)
          = (get_active_contract db st' cid (some c')).map (fun x => x.1))
    ∧ (∀ (db : DB) (st : CacheState) (cid : String) (c : Conn)
        (r : ActiveContractResult) (st2 : CacheState) (f : Bool),
        get_active_contract db st cid (some c) = Except.ok (r, st2, f) →
        f = true ∧ st2 = st) := by
  refine ⟨?_, ?_, ?_⟩
  · intro db st cid r st1 f h
    rcases hl : cacheLookup st cid with _ | v
    · rcases hf : fetch_active_contract db cid with e | row
      · simp [get_active_contract, get_cached_active_contract, hl, hf] at h
      · have h128 : lru_maxsize = 127 + 1 := rfl
        simp only [get_active_contract, get_cached_active_contract, hl, hf, h128,
          List.take_succ_cons, Except.ok.injEq, Prod.mk.injEq] at h
        obtain ⟨h1, h2, h3⟩ := h
        have hlt : cacheLookup (List.take 127 st) cid = Option.none :=
          cacheLookup_take_none st cid 127 hl
        subst h1 h2
        simp [get_active_contract, get_cached_active_contract, cacheLookup_cons_self,
          cacheRemove_cons_self, cacheRemove_of_lookup_none _ _ hlt]
    · simp only [get_active_contract, get_cached_active_contract, hl,
        Except.ok.injEq, Prod.mk.injEq] at h
      obtain ⟨h1, h2, h3⟩ := h
      subst h1 h2
      simp [get_active_contract, get_cached_active_contract, cacheLookup_cons_self,
        cacheRemove_cons_self, cacheRemove_idem]
  · intro db st st' cid c c'
    rcases hf : fetch_active_contract db cid with e | row <;>
      simp [get_active_contract, hf, Except.map]
  · intro db st cid c r st2 f h
    rcases hf : fetch_active_contract db cid with e | row
    · simp only [get_active_contract, hf] at h
      exact Except.noConfusion h
    · simp only [get_active_contract, hf, Except.ok.injEq, Prod.mk.injEq] at h
      exact ⟨h.2.2.symm, h.2.1.symm⟩

/-- Witness for C6: on the concrete one-contract storage, a first call from the
empty cache succeeds and fills the cache; the theorem then gives that the
consecutive second call returns the same data without a storage read, that the
connection path ignores the cache state, and that a successful connection call
reads storage and leaves the cache unchanged. -/
theorem active_contract_cache_property_witness :
    get_active_contract dbW
        [("client1", ("ct1", "v1", pyUpper "HYBRID", pyStrOfDict rowW.rules_config))]
        "client1" Option.none
      = Except.ok
        ({ contract_id := "ct1", vendor_id := "v1", billing_model := pyUpper "HYBRID",
           rules_config := RulesVal.str (pyStrOfDict rowW.rules_config) },
         [("client1", ("ct1", "v1", pyUpper "HYBRID", pyStrOfDict rowW.rules_config))],
         false) :=
  active_contract_cache_property.1 dbW [] "client1"
    { contract_id := "ct1", vendor_id := "v1", billing_model := pyUpper "HYBRID",
      rules_config := RulesVal.str (pyStrOfDict rowW.rules_config) }
    [("client1", ("ct1", "v1", pyUpper "HYBRID", pyStrOfDict rowW.rules_config))]
    true rfl

-- --- C7: batch billing ---

theorem calculate_trip_cost_fst_conn_independent (db : DB) (tid cid : String)
    (conn : Option Conn) (o : Option Bool) :
    (calculate_trip_cost db tid cid conn o).1
      = (calculate_trip_cost db tid cid Option.none o).1 := by
  rcases h : db.trip_context tid cid with _ | row <;>
    simp [calculate_trip_cost, fetch_trip_context, h]

theorem billingRowsLoop_fst (db : DB) (cid : String) (ts : List TripListRow)
    (conn : Option Conn) :
    (billingRowsLoop db cid ts conn).1
      = ts.map (fun t =>
          match (calculate_trip_cost db t.trip_id cid Option.none Option.none).1 with
          | Except.ok res => successRow t res
          | Except.error e => errorRow t e) := by
  induction ts generalizing conn with
  | nil => rfl
  | cons t rest ih =>
      rcases hc : calculate_trip_cost db t.trip_id cid conn Option.none with ⟨e | res, conn1⟩
      · have hfst : (calculate_trip_cost db t.trip_id cid Option.none Option.none).1
            = Except.error e := by
          rw [← calculate_trip_cost_fst_conn_independent db t.trip_id cid conn, hc]
        simp [billingRowsLoop, hc, hfst, ih]
      · have hfst : (calculate_trip_cost db t.trip_id cid Option.none Option.none).1
            = Except.ok res := by
          rw [← calculate_trip_cost_fst_conn_independent db t.trip_id cid conn, hc]
        simp [billingRowsLoop, hc, hfst, ih]

/-- Claim C7: `get_client_billing_data` returns exactly one row per client
trip, in trip order: the row list is the pointwise image of the trip list,
where a trip whose pricing succeeds becomes a `successRow` (status SUCCESS, no
error) and a trip whose pricing fails becomes an `errorRow` carrying status
ERROR and the exception message — so a single failure never aborts the batch,
the remaining trips are still processed, and the operation as a whole is a
total function (it returns a plain list, never an exception). -/
theorem batch_billing_one_row_per_trip (db : DB) (cid : String) (conn : Option Conn) :
    (get_client_billing_data db cid conn).1
      = (db.client_trips cid).map (fun t =>
          match (calculate_trip_cost db t.trip_id cid Option.none Option.none).1 with
          | Except.ok res => successRow t res
          | Except.error e => errorRow t e)
    ∧ (get_client_billing_data db cid conn).1.length = (db.client_trips cid).length
    ∧ (∀ (t : TripListRow) (res : CalculationResult),
        (successRow t res).status = "SUCCESS" ∧ (successRow t res).error = Option.none)
    ∧ (∀ (t : TripListRow) (e : String),
        (errorRow t e).status = "ERROR" ∧ (errorRow t e).error = some e
          ∧ (errorRow t e).trip_id = t.trip_id) := by
  refine ⟨billingRowsLoop_fst db cid (db.client_trips cid) conn, ?_, ?_, ?_⟩
  · rw [get_client_billing_data, billingRowsLoop_fst db cid (db.client_trips cid) conn]
    exact List.length_map _ _
  · intro t res
    exact ⟨rfl, rfl⟩
  · intro t e
    exact ⟨rfl, rfl, rfl⟩
